import Mathlib

/-!
Verification development for the finance-tracker backend.

Shallow embedding of the upload / transaction pipeline:
  - `src/backend/controllers/uploadController.js`
      (`parseTabularData`, `uploadTransactionHistory`, `extractReceiptData`,
       `uploadReceipt`, `createTransactionFromReceipt`)
  - the transaction controller (`createTransaction`, `updateTransaction`).

Conventions of the embedding:
  - JS strings are Lean `String`s; the case-insensitive regex
    `new RegExp("^name$", "i")` is modelled as case-insensitive string
    equality (the names occurring in this development contain no regex
    metacharacters).
  - JS numbers that the code produces with `parseFloat` / `Math.abs` are
    modelled as exact decimals (`Dec` below); IEEE-754 rounding is not
    modelled (the amounts compared in this development are short decimals
    that round-trip exactly).
  - The JS `Date` constructor is an external builtin; `parseTabularData`
    is parameterized over a date parser `String → Option Int`, and
    `isoDate?` instantiates it on the ISO `yyyy-mm-dd` subset used by the
    concrete inputs of this development.
  - Mongo collections are association lists; `findOne` is `List.find?`
    (first match in insertion order), `create` appends.
  - The blob store is a list of `(path, contentId)` pairs; `fs.renameSync`
    is `renameSync` below (fails when the source path is absent,
    overwrites the destination when present).
-/

/-- ASCII lower-casing of one character (models `String.prototype.toLowerCase`
on the ASCII names occurring in this development). -/
def lcChar (c : Char) : Char :=
  if 'A' ≤ c && c ≤ 'Z' then Char.ofNat (c.toNat + 32) else c

/-- Lower-case a string (models `s.toLowerCase()`). -/
def lcStr (s : String) : String := String.mk (s.data.map lcChar)

/-- Whitespace test (models the JS `\s` class on the characters occurring here). -/
def wsChar (c : Char) : Bool := c = ' ' || c = '\t' || c = '\n' || c = '\r'

/-- Trim whitespace from both ends of a character list. -/
def trimList (l : List Char) : List Char :=
  ((l.dropWhile wsChar).reverse.dropWhile wsChar).reverse

/-- Models `s.trim()`. -/
def trimStr (s : String) : String := String.mk (trimList s.data)

/-- Boolean prefix test on character lists. -/
def isPrefixB : List Char → List Char → Bool
  | [], _ => true
  | _ :: _, [] => false
  | a :: as, b :: bs => a = b && isPrefixB as bs

/-- Boolean substring test (models `String.prototype.includes`). -/
def containsSub (needle : List Char) : List Char → Bool
  | [] => isPrefixB needle []
  | c :: cs => isPrefixB needle (c :: cs) || containsSub needle cs

/-- Boolean single-character membership (models `s.includes(c)` for one
character). -/
def containsChar (x : Char) : List Char → Bool
  | [] => false
  | c :: cs => x == c || containsChar x cs

/-- Split a string at every occurrence of a character
(models `s.split(',')` and `s.split('\t')` and `s.split('\n')`). -/
def splitOnChar (c : Char) (s : String) : List String :=
  (s.data.splitOn c).map (fun l => String.mk l)

/-- State machine for `s.split(/\s{2,}/)`: runs of two or more whitespace
characters separate tokens; a single whitespace character stays inside the
current token.  `toks` are the finished tokens, `cur` the current token
(reversed), `pend` the not-yet-classified whitespace run (reversed). -/
def splitWsRunsGo (toks : List (List Char)) (cur pend : List Char) :
    List Char → List (List Char)
  | [] =>
      if pend.length ≥ 2 then toks ++ [cur.reverse, []]
      else toks ++ [(pend ++ cur).reverse]
  | c :: cs =>
      if wsChar c then splitWsRunsGo toks cur (c :: pend) cs
      else if pend.length ≥ 2 then splitWsRunsGo (toks ++ [cur.reverse]) [c] [] cs
      else splitWsRunsGo toks (c :: (pend ++ cur)) [] cs

/-- Models `line.split(/\s{2,}/)`. -/
def splitWsRuns (s : String) : List String :=
  (splitWsRunsGo [] [] [] s.data).map (fun l => String.mk l)

/-- Remove every double quote (models `p.replace(/"/g, '')`). -/
def removeQuotes (s : String) : String :=
  String.mk (s.data.filter (fun c => !(c = '"')))

/-- Remove every dollar sign and comma
(models `amount.replace(/[$,]/g, '')`). -/
def stripDollarComma (s : String) : String :=
  String.mk (s.data.filter (fun c => !(c = '$' || c = ',')))

/-- Decimal digit test. -/
def isDigit (c : Char) : Bool := '0' ≤ c && c ≤ '9'

/-- Numeric value of a digit string. -/
def digitsToNat (l : List Char) : Nat :=
  l.foldl (fun acc c => acc * 10 + (c.toNat - '0'.toNat)) 0

/-- Exact decimal number: `num / 10 ^ scale`.  Canonical form (as produced by
`canonDec`) has a mantissa not divisible by 10 unless it is 0 with scale 0,
so equality of canonical values is plain structural equality. -/
structure Dec where
  num : Int
  scale : Nat
deriving DecidableEq

/-- Canonicalize a decimal by stripping factors of 10 shared between the
mantissa and the scale. -/
def canonDec : Int → Nat → Dec
  | n, 0 => ⟨n, 0⟩
  | n, s + 1 => if n % 10 = 0 then canonDec (n / 10) s else ⟨n, s + 1⟩

/-- Absolute value (models `Math.abs`). -/
def decAbs (d : Dec) : Dec := ⟨(d.num.natAbs : Int), d.scale⟩

/-- Models the JS builtin `parseFloat`: skip leading whitespace, optional
sign, integer digits, optional fraction, optional exponent; `none` models
`NaN` (no digits at all).  `Infinity` literals and IEEE-754 rounding are not
modelled; trailing garbage is ignored exactly as `parseFloat` ignores it. -/
def jsParseFloat (s : String) : Option Dec :=
  let l := s.data.dropWhile wsChar
  let sgn : Int := match l with
    | '-' :: _ => -1
    | _ => 1
  let l1 : List Char := match l with
    | '-' :: rest => rest
    | '+' :: rest => rest
    | _ => l
  let intPart := l1.takeWhile isDigit
  let l2 := l1.drop intPart.length
  let fracPart : List Char := match l2 with
    | '.' :: rest => rest.takeWhile isDigit
    | _ => []
  let l3 : List Char := match l2 with
    | '.' :: rest => rest.drop (rest.takeWhile isDigit).length
    | _ => l2
  if intPart = [] && fracPart = [] then none
  else
    let mant : Int := sgn * (digitsToNat (intPart ++ fracPart) : Int)
    let scale := fracPart.length
    let expo : Int :=
      match l3 with
      | e :: rest =>
          if e = 'e' || e = 'E' then
            let esgn : Int := match rest with
              | '-' :: _ => -1
              | _ => 1
            let rest2 : List Char := match rest with
              | '-' :: r => r
              | '+' :: r => r
              | _ => rest
            let ds := rest2.takeWhile isDigit
            if ds = [] then 0 else esgn * (digitsToNat ds : Int)
          else 0
      | [] => 0
    if 0 ≤ expo then some (canonDec (mant * (10 : Int) ^ expo.toNat) scale)
    else some (canonDec mant (scale + (-expo).toNat))

/-- Instantiation of the external `new Date(s)` validity test on the ISO
`yyyy-mm-dd` subset exercised by the concrete inputs of this development;
a valid date is encoded as `y * 10000 + m * 100 + d`. -/
def isoDate? (s : String) : Option Int :=
  match splitOnChar '-' s with
  | [y, m, d] =>
      if y.data.length = 4 && y.data.all isDigit &&
         1 ≤ m.data.length && m.data.length ≤ 2 && m.data.all isDigit &&
         1 ≤ d.data.length && d.data.length ≤ 2 && d.data.all isDigit then
        let yn := digitsToNat y.data
        let mn := digitsToNat m.data
        let dn := digitsToNat d.data
        if 1 ≤ mn && mn ≤ 12 && 1 ≤ dn && dn ≤ 31 then
          some ((yn * 10000 + mn * 100 + dn : Nat) : Int)
        else none
      else none
  | _ => none

/-- Decidable equality for `Except`, used to evaluate pipeline outcomes on
concrete inputs. -/
instance exceptDecidableEq {ε α : Type} [DecidableEq ε] [DecidableEq α] :
    DecidableEq (Except ε α) := fun x y =>
  match x, y with
  | .error a, .error b =>
      if h : a = b then .isTrue (congrArg Except.error h)
      else .isFalse (fun hh => h (Except.error.inj hh))
  | .ok a, .ok b =>
      if h : a = b then .isTrue (congrArg Except.ok h)
      else .isFalse (fun hh => h (Except.ok.inj hh))
  | .error _, .ok _ => .isFalse (fun hh => Except.noConfusion hh)
  | .ok _, .error _ => .isFalse (fun hh => Except.noConfusion hh)

/-- Category document (`src/backend/models/Category`): `color`/`icon` are
presentation-only and not modelled.  `userId = none` together with
`isDefault = true` models the shared default categories. -/
structure Category where
  id : Nat
  name : String
  type : String
  userId : Option Nat
  isDefault : Bool
deriving DecidableEq

/-- The mongo scope predicate `$or: [{ userId: req.user.id }, { isDefault: true }]`. -/
def ownerOrDefault (userId : Nat) (c : Category) : Bool :=
  c.userId == some userId || c.isDefault

/-- Case-insensitive exact-name match, modelling
`name: { $regex: new RegExp("^hint$", "i") }`. -/
def nameMatchesCI (hint : String) (c : Category) : Bool :=
  lcStr c.name == lcStr hint

/-- The type filter `type: { $in: ['expense', 'both'] }`. -/
def expenseOrBoth (c : Category) : Bool :=
  c.type == "expense" || c.type == "both"

/-- JS truthiness of an optional string (empty string is falsy). -/
def truthyStr : Option String → Bool
  | none => false
  | some s => !(s == "")

/-- Per-record category resolution of `uploadTransactionHistory`
(uploadController.js lines 737-749): case-insensitive name lookup in
owner-or-default scope (no type filter), else create a category named by the
hint with the record's inferred type.  Returns the category, the updated
store, and the next fresh id. -/
def findOrCreateImportCategory (categoryName ttype : String) (userId : Nat)
    (store : List Category) (nextId : Nat) : Category × List Category × Nat :=
  match store.find? (fun c => nameMatchesCI categoryName c && ownerOrDefault userId c) with
  | some c => (c, store, nextId)
  | none =>
      let c : Category := ⟨nextId, categoryName, ttype, some userId, false⟩
      (c, store ++ [c], nextId + 1)

/-- Default-name list of the `uploadReceipt` auto-file path
(uploadController.js line 368). -/
def uploadReceiptDefaults : List String :=
  ["Groceries", "Shopping", "Other Expenses", "Food & Dining"]

/-- Default-name list of `createTransactionFromReceipt`
(uploadController.js line 582). -/
def createFromReceiptDefaults : List String :=
  ["Groceries", "Shopping", "Other Expenses"]

/-- Category resolution of the receipt paths (uploadController.js lines
346-383 and 560-597): a truthy name hint (with no id hint) is looked up
case-insensitively with the `expense`/`both` type filter; otherwise an id
hint is looked up with no type filter; if nothing was found, the
`defaultNames` list is tried (exact names, type filtered); as a last resort
an owner-owned `'Other Expenses'` expense category is created.  Mongo
ObjectId hints are nonempty strings, so an id hint is truthy exactly when
present. -/
def resolveReceiptCategory (categoryName : Option String) (categoryId : Option Nat)
    (defaultNames : List String) (userId : Nat) (store : List Category)
    (nextId : Nat) : Category × List Category × Nat :=
  let step1 : Option Category :=
    if truthyStr categoryName && !categoryId.isSome then
      store.find? (fun c => nameMatchesCI (categoryName.getD "") c &&
        ownerOrDefault userId c && expenseOrBoth c)
    else if categoryId.isSome then
      store.find? (fun c => c.id == categoryId.getD 0 && ownerOrDefault userId c)
    else none
  let step2 : Option Category :=
    match step1 with
    | some c => some c
    | none =>
        store.find? (fun c => defaultNames.contains c.name &&
          ownerOrDefault userId c && expenseOrBoth c)
  match step2 with
  | some c => (c, store, nextId)
  | none =>
      let c : Category := ⟨nextId, "Other Expenses", "expense", some userId, false⟩
      (c, store ++ [c], nextId + 1)

/-- Resolver that follows the spec's words (spec §4.3, for the refinement
comparison of claim C4): case-insensitive type-compatible name match in
owner-or-shared scope, then the ordered default-name list under the same
scope/type rule, then creation of a new category with the requested type. -/
def specResolveCategory (nameHint ttype : String) (userId : Nat)
    (defaultNames : List String) (store : List Category) (nextId : Nat) :
    Category × List Category × Nat :=
  let typeOk : Category → Bool := fun c => c.type == ttype || c.type == "both"
  match store.find? (fun c => nameMatchesCI nameHint c && ownerOrDefault userId c && typeOk c) with
  | some c => (c, store, nextId)
  | none =>
      match store.find? (fun c => defaultNames.contains c.name &&
          ownerOrDefault userId c && typeOk c) with
      | some c => (c, store, nextId)
      | none =>
          let c : Category := ⟨nextId, "Other Expenses", ttype, some userId, false⟩
          (c, store ++ [c], nextId + 1)

/-- Candidate transaction record produced by `parseTabularData`
(uploadController.js lines 869-877). -/
structure ImportTxn where
  userId : Nat
  type : String
  amount : Dec
  description : String
  categoryName : String
  date : Int
  isImported : Bool
deriving DecidableEq

/-- Field splitting of one line (uploadController.js lines 830-842):
delimiter priority comma > tab > runs of two or more spaces; comma fields
are trimmed and stripped of double quotes, the others only trimmed. -/
def splitLine (line : String) : List String :=
  if containsChar ',' line.data then
    (splitOnChar ',' line).map (fun p => removeQuotes (trimStr p))
  else if containsChar '\t' line.data then
    (splitOnChar '\t' line).map trimStr
  else
    (splitWsRuns line).map trimStr

/-- Body of the per-line loop of `parseTabularData` (uploadController.js
lines 844-880), parameterized over the external date parser `parseDate`
(the JS `new Date` builtin); `none` models a skipped line (`continue`). -/
def parseLine (parseDate : String → Option Int) (userId : Nat)
    (line : String) : Option ImportTxn :=
  let parts := splitLine line
  if parts.length ≥ 3 then
    let dateStr := parts.getD 0 ""
    let description := parts.getD 1 ""
    let amountStr := stripDollarComma (parts.getD 2 "")
    let categoryName : String :=
      match parts.get? 3 with
      | some s => if s == "" then "Imported" else s
      | none => "Imported"
    match parseDate dateStr with
    | none => none
    | some d =>
        match jsParseFloat amountStr with
        | none => none
        | some v =>
            let amount := decAbs v
            if amount.num = 0 then none
            else
              let ttype : String :=
                if containsChar '-' amountStr.data ||
                   containsSub "payment".data (lcStr description).data
                then "expense" else "income"
              some ⟨userId, ttype, amount, trimStr description,
                    trimStr categoryName, d, true⟩
  else none

/-- `parseTabularData(text, userId)` (uploadController.js lines 816-888):
split into lines, drop whitespace-only lines, skip the first remaining line
as a header, and collect the records of the surviving lines.  Lines the
loop skips (`continue`) contribute nothing: the function returns records
only, no error collection. -/
def parseTabularData (parseDate : String → Option Int) (text : String)
    (userId : Nat) : List ImportTxn :=
  let lines := (splitOnChar '\n' text).filter (fun l => !(trimStr l == ""))
  (lines.drop 1).filterMap (fun l =>
    let line := trimStr l
    if line == "" then none else parseLine parseDate userId line)

/-- Persisted import transaction (`categoryName` replaced by the resolved
`categoryId`, uploadController.js lines 751-755). -/
structure FinalImportTxn where
  userId : Nat
  type : String
  amount : Dec
  description : String
  date : Int
  isImported : Bool
  categoryId : Nat
deriving DecidableEq

/-- One step of the per-record loop of `uploadTransactionHistory`. -/
def processImportRecord (acc : List FinalImportTxn × List Category × Nat)
    (t : ImportTxn) : List FinalImportTxn × List Category × Nat :=
  let (done, store, nextId) := acc
  let (c, store1, next1) :=
    findOrCreateImportCategory t.categoryName t.type t.userId store nextId
  (done ++ [⟨t.userId, t.type, t.amount, t.description, t.date, t.isImported, c.id⟩],
   store1, next1)

/-- `uploadTransactionHistory` after text extraction (uploadController.js
lines 724-795): parse, fail the whole import when no record survived, else
resolve a category per record and bulk-insert.  The store operations are
total in this model, so the per-record `errors` array is always empty; the
only error outcome is the whole-batch `No valid transactions found` throw. -/
def uploadTransactionHistory (parseDate : String → Option Int) (text : String)
    (userId : Nat) (store : List Category) (nextId : Nat) :
    Except String (List FinalImportTxn × List Category × Nat) :=
  let txns := parseTabularData parseDate text userId
  if txns.length = 0 then
    .error "No valid transactions found in the uploaded file"
  else
    .ok (txns.foldl processImportRecord ([], store, nextId))

/-- Normalized extracted receipt payload, as far as this development
inspects it (remaining OCR fields do not influence the verified control
flow). -/
structure ExtractedData where
  storeName : Option String
  date : Option Int
  total : Option Dec
deriving DecidableEq

/-- Observable outcome of the OCR phase of `extractReceiptData` /
`uploadReceipt`: the extracted payload, the surviving `processingError`,
and how many times each engine was invoked. -/
structure OcrOutcome where
  extractedData : Option ExtractedData
  processingError : Option String
  textractCalls : Nat
  tesseractCalls : Nat
deriving DecidableEq

/-- OCR phase of `extractReceiptData` (uploadController.js lines 150-206).
`ocrEngineBody` is `req.body.ocrEngine` (defaulted to `'textract'` by the
destructuring); `textractRun` / `tesseractRun` are the outcomes the two
engine services would produce (each engine is deterministic within one
request in this model).  Primary selection: `'tesseract'` picks the offline
engine, anything else picks Textract.  On a primary failure the Tesseract
fallback runs only under `ocrEngine === 'textract'`; if it also fails both
messages are captured. -/
def extractReceiptData (ocrEngineBody : Option String)
    (textractRun tesseractRun : Except String ExtractedData) : OcrOutcome :=
  let ocrEngine := ocrEngineBody.getD "textract"
  if ocrEngine == "tesseract" then
    match tesseractRun with
    | .ok d => ⟨some d, none, 0, 1⟩
    | .error m => ⟨none, some m, 0, 1⟩
  else
    match textractRun with
    | .ok d => ⟨some d, none, 1, 0⟩
    | .error m =>
        if ocrEngine == "textract" then
          match tesseractRun with
          | .ok d => ⟨some d, none, 1, 1⟩
          | .error m2 =>
              ⟨none, some ("Primary OCR failed: " ++ m ++ ". Fallback also failed: " ++ m2),
               1, 1⟩
        else ⟨none, some m, 1, 0⟩

/-- OCR phase of `uploadReceipt` (uploadController.js lines 282-338), with
its hard-coded `forceOcrEngine = 'textract'` selection chain and the same
raw-hint fallback guard. -/
def uploadReceiptOcr (ocrEngineBody : Option String)
    (textractRun tesseractRun : Except String ExtractedData) : OcrOutcome :=
  let ocrEngine := ocrEngineBody.getD "textract"
  let forceOcrEngine := "textract"
  if forceOcrEngine == "tesseract" || ocrEngine == "tesseract" then
    match tesseractRun with
    | .ok d => ⟨some d, none, 0, 1⟩
    | .error m =>
        if ocrEngine == "textract" then
          match tesseractRun with
          | .ok d => ⟨some d, none, 0, 2⟩
          | .error m2 =>
              ⟨none, some ("Primary OCR failed: " ++ m ++ ". Fallback also failed: " ++ m2),
               0, 2⟩
        else ⟨none, some m, 0, 1⟩
  else
    match textractRun with
    | .ok d => ⟨some d, none, 1, 0⟩
    | .error m =>
        if ocrEngine == "textract" then
          match tesseractRun with
          | .ok d => ⟨some d, none, 1, 1⟩
          | .error m2 =>
              ⟨none, some ("Primary OCR failed: " ++ m ++ ". Fallback also failed: " ++ m2),
               1, 1⟩
        else ⟨none, some m, 1, 0⟩

/-- Receipt sub-document stored on a transaction (file fields plus the OCR
fields this development inspects). -/
structure ReceiptAttach where
  filename : String
  originalName : String
  mimetype : String
  size : Nat
  path : String
  storeName : String
  total : Dec
deriving DecidableEq

/-- Transaction draft handed to `Transaction.create`. -/
structure TxnData where
  userId : Nat
  type : String
  amount : Dec
  description : String
  categoryId : Nat
  date : Int
  receipt : Option ReceiptAttach
deriving DecidableEq

/-- Modelled from the spec: `generateTransactionData` lives in the OCR
service modules (`tesseractOcrService.js` / `textractOcrService.js`), which
are not under `src/`.  Per spec §4.4 (assemble is a pure merge of the
normalized receipt), §3 (receipts auto-file as expenses) and §6 (minimum
persisted receipt fields), it produces an expense-typed draft whose amount
is the extracted total, whose date is the extracted date when present, and
a receipt sub-document carrying the extracted fields (file fields are
filled in afterwards by the controller). -/
def generateTransactionData (e : ExtractedData) (userId categoryId : Nat)
    (now : Int) : TxnData :=
  { userId := userId
    type := "expense"
    amount := e.total.getD ⟨0, 0⟩
    description := "Purchase at " ++ e.storeName.getD "store"
    categoryId := categoryId
    date := e.date.getD now
    receipt := some ⟨"", "", "", 0, "", e.storeName.getD "", e.total.getD ⟨0, 0⟩⟩ }

/-- Override payload of `createTransactionFromReceipt`.  `categoryId` is a
Mongo ObjectId string in JS, always nonempty, hence truthy exactly when
present. -/
structure Overrides where
  amount : Option Dec
  description : Option String
  date : Option String
  categoryName : Option String
  categoryId : Option Nat
deriving DecidableEq

/-- Override application of `createTransactionFromReceipt`
(uploadController.js lines 617-620): each field is applied only when
truthy (`if (overrides.amount) ...`), so a zero amount, an empty
description or an empty date string is ignored.  `pd` models the external
`new Date` builtin used for the date override. -/
def applyOverrides (pd : String → Int) (o : Overrides) (t : TxnData) : TxnData :=
  let t1 := match o.amount with
    | some a => if a.num ≠ 0 then { t with amount := a } else t
    | none => t
  let t2 := match o.description with
    | some s => if s ≠ "" then { t1 with description := s } else t1
    | none => t1
  match o.date with
  | some s => if s ≠ "" then { t2 with date := pd s } else t2
  | none => t2

/-- Uploaded receipt file info attached to the created transaction. -/
structure ReceiptInfo where
  filename : String
  originalName : String
  mimetype : String
  size : Nat
  path : String
deriving DecidableEq

/-- Copy the uploaded file's info onto the draft's receipt sub-document
(uploadController.js lines 622-627 and 408-413). -/
def attachReceiptInfo (ri : ReceiptInfo) (t : TxnData) : TxnData :=
  match t.receipt with
  | some r =>
      let r2 : ReceiptAttach :=
        { filename := ri.filename
          originalName := ri.originalName
          mimetype := ri.mimetype
          size := ri.size
          path := ri.path
          storeName := r.storeName
          total := r.total }
      { t with receipt := some r2 }
  | none => t

/-- `createTransactionFromReceipt` (uploadController.js lines 545-661) after
input validation: resolve a category from the overrides, assemble the draft,
apply overrides, attach the file info, and create the transaction.  Both OCR
services' `generateTransactionData` are modelled by the same function, so
the engine-selection branch (lines 600-609) collapses.  No branch of this
path rejects; the model's error type documents that `Transaction.create` is
the only failure source (modelled total). -/
def createTransactionFromReceipt (pd : String → Int) (extractedData : ExtractedData)
    (receiptInfo : ReceiptInfo) (overrides : Overrides) (userId : Nat)
    (store : List Category) (nextId : Nat) (now : Int) :
    Except String TxnData × List Category × Nat :=
  let r := resolveReceiptCategory overrides.categoryName overrides.categoryId
    createFromReceiptDefaults userId store nextId
  let td := generateTransactionData extractedData userId r.1.id now
  let td := applyOverrides pd overrides td
  let td := attachReceiptInfo receiptInfo td
  (.ok td, r.2.1, r.2.2)

/-- Auto-file tail of `uploadReceipt` (uploadController.js lines 344-415):
same shape as `createTransactionFromReceipt` but with the request-body
hints, the longer default-name list and no overrides. -/
def uploadReceiptAutoFile (extractedData : ExtractedData) (receiptInfo : ReceiptInfo)
    (categoryName : Option String) (categoryId : Option Nat) (userId : Nat)
    (store : List Category) (nextId : Nat) (now : Int) :
    Except String TxnData × List Category × Nat :=
  let r := resolveReceiptCategory categoryName categoryId
    uploadReceiptDefaults userId store nextId
  let td := generateTransactionData extractedData userId r.1.id now
  let td := attachReceiptInfo receiptInfo td
  (.ok td, r.2.1, r.2.2)

/-- `fs.renameSync(src, dst)` over the blob-store model: fails (`none`,
modelling the thrown `ENOENT`) when `src` is absent; otherwise removes
`src`, silently replaces any existing `dst`, and binds `dst` to the moved
content. -/
def renameSync (files : List (String × Nat)) (src dst : String) :
    Option (List (String × Nat)) :=
  match files.lookup src with
  | none => none
  | some content =>
      some ((files.filter (fun p => !(p.1 == src) && !(p.1 == dst))) ++ [(dst, content)])

/-- Temp receipt file handle (`receiptFileInfo` of the create-transaction
request body). -/
structure TempFileInfo where
  tempPath : String
  originalName : String
  mimetype : String
  size : Nat
  uploadedAt : Int
deriving DecidableEq

/-- Extracted receipt payload (`receiptData` of the create-transaction
request body), reduced to the fields this development inspects. -/
structure ReceiptData where
  storeName : String
  total : Dec
deriving DecidableEq

/-- Request body of `POST /api/transactions` (transaction controller,
`createTransaction`). -/
structure CreateTxnBody where
  type : String
  amount : Dec
  description : String
  categoryId : Option Nat
  categoryName : Option String
  category : Option String
  date : Option Int
  receiptFileInfo : Option TempFileInfo
  receiptData : Option ReceiptData
deriving DecidableEq

/-- API-level failures of `createTransaction` (HTTP 404 / 400 responses). -/
inductive ApiError where
  | notFound (msg : String)
  | badRequest (msg : String)
deriving DecidableEq

/-- Non-receipt part of the transaction draft built by `createTransaction`
(transaction controller lines 85-97). -/
def txnCore (body : CreateTxnBody) (userId : Nat) (category : Category)
    (now : Int) : TxnData :=
  { userId := userId
    type := body.type
    amount := body.amount
    description := body.description
    categoryId := category.id
    date := body.date.getD now
    receipt := none }

/-- Tail of `createTransaction` once the category is resolved (transaction
controller lines 76-152): reject on a type conflict, then — when both
receipt fields are present — try the temp→permanent move inside try/catch:
a successful move attaches the receipt sub-document, a failed move is
logged and the transaction proceeds receipt-less; finally create.
`permanentFilename` is the freshly generated permanent name (timestamp +
random in the source, supplied exogenously here); it is used as the stored
path as well. -/
def createTransactionWithCategory (body : CreateTxnBody) (userId : Nat)
    (category : Category) (files : List (String × Nat))
    (permanentFilename : String) (now : Int) :
    Except ApiError (TxnData × List (String × Nat)) :=
  if !(category.type == "both") && !(category.type == body.type) then
    .error (.badRequest ("Category '" ++ category.name ++ "' cannot be used for "
      ++ body.type ++ " transactions"))
  else
    let base := txnCore body userId category now
    match body.receiptFileInfo, body.receiptData with
    | some info, some rdata =>
        (match renameSync files info.tempPath permanentFilename with
         | some files1 =>
             .ok ({ base with receipt := some ⟨permanentFilename, info.originalName,
                      info.mimetype, info.size, permanentFilename,
                      rdata.storeName, rdata.total⟩ }, files1)
         | none => .ok (base, files))
    | _, _ => .ok (base, files)

/-- `createTransaction` (transaction controller lines 16-179): category
resolution — name lookup (case-insensitive, owner-or-default scope, no type
filter) when a truthy name and no id was sent, id lookup when an id was
sent, 400 when neither — then `createTransactionWithCategory`. -/
def createTransaction (body : CreateTxnBody) (userId : Nat)
    (store : List Category) (files : List (String × Nat))
    (permanentFilename : String) (now : Int) :
    Except ApiError (TxnData × List (String × Nat)) :=
  let providedCategoryName : Option String :=
    if truthyStr body.categoryName then body.categoryName else body.category
  if truthyStr providedCategoryName && !body.categoryId.isSome then
    match store.find? (fun c => nameMatchesCI (providedCategoryName.getD "") c &&
        ownerOrDefault userId c) with
    | none => .error (.notFound ("Category '" ++ providedCategoryName.getD ""
        ++ "' not found. Please create it first or use an existing category."))
    | some category =>
        createTransactionWithCategory body userId category files permanentFilename now
  else if body.categoryId.isSome then
    match store.find? (fun c => c.id == body.categoryId.getD 0 &&
        ownerOrDefault userId c) with
    | none => .error (.notFound "Category not found")
    | some category =>
        createTransactionWithCategory body userId category files permanentFilename now
  else .error (.badRequest "Either categoryId, categoryName, or category is required")

/-- Concrete two-line CSV input from the spec's testable properties. -/
def csvExample : String :=
  "Date,Description,Amount,Category\n2024-01-05,Grocery Store,-45.20,Groceries\n2024-01-06,Paycheck,2000,Salary"

/-- Concrete input whose single data line has an unparseable date. -/
def badDateExample : String := "Date,Description,Amount\nnot-a-date,X,10"

/-- A fixed extracted receipt used by the concrete scenarios. -/
def sampleExtracted : ExtractedData := ⟨some "Sto", some 20240101, some ⟨10, 0⟩⟩

/-- A fixed uploaded-receipt file info used by the concrete scenarios. -/
def sampleReceiptInfo : ReceiptInfo := ⟨"f.jpg", "o.jpg", "image/jpeg", 3, "p/f.jpg"⟩

/-- A store holding one income-typed category owned by user 7. -/
def incomeStore : List Category := [⟨5, "Salary", "income", some 7, false⟩]

/-- A store holding one shared default category typed `both` whose name is on
the default-name lists. -/
def bothDefaultStore : List Category := [⟨1, "Other Expenses", "both", none, true⟩]

/-- Overrides carrying only a zero amount. -/
def zeroAmountOverride : Overrides := ⟨some ⟨0, 0⟩, none, none, none, none⟩

/-- Overrides carrying only an id hint for category 5. -/
def idHintOverride : Overrides := ⟨none, none, none, none, some 5⟩

/-- Overrides carrying only a nonzero amount. -/
def fiveAmountOverride : Overrides := ⟨some ⟨5, 0⟩, none, none, none, none⟩

/-- A create-transaction request body with an id hint and no receipt. -/
def sampleBody : CreateTxnBody :=
  ⟨"expense", ⟨5, 0⟩, "Lunch", some 5, none, none, none, none, none⟩

/-- A create-transaction request body carrying a temp receipt file. -/
def receiptBody : CreateTxnBody :=
  ⟨"expense", ⟨5, 0⟩, "Lunch", some 5, none, none, none,
   some ⟨"tmp/a.jpg", "a.jpg", "image/jpeg", 3, 0⟩, some ⟨"Sto", ⟨10, 0⟩⟩⟩

/-- An expense category compatible with `sampleBody` / `receiptBody`. -/
def expenseCat : Category := ⟨5, "Food", "expense", some 7, false⟩

/-- Blob-store state after `renameSync files src dst` succeeds moving
content `cid`. -/
def movedFiles (files : List (String × Nat)) (src dst : String) (cid : Nat) :
    List (String × Nat) :=
  (files.filter (fun p => !(p.1 == src) && !(p.1 == dst))) ++ [(dst, cid)]

theorem lookup_filter_none (l : List (String × Nat)) (src dst k : String)
    (hk : k = src ∨ k = dst) :
    (l.filter (fun p => !(p.1 == src) && !(p.1 == dst))).lookup k = none := by
  induction l with
  | nil => rfl
  | cons p l ih =>
      by_cases h1 : p.1 = src
      · simp [List.filter, h1, ih]
      · by_cases h2 : p.1 = dst
        · simp [List.filter, h2, ih]
        · have hkp : (k == p.1) = false := by
            rcases hk with hk | hk
            · subst hk; exact beq_eq_false_iff_ne.mpr (fun hh => h1 hh.symm)
            · subst hk; exact beq_eq_false_iff_ne.mpr (fun hh => h2 hh.symm)
          simp [List.filter_cons, h1, h2, List.lookup, hkp, ih]

theorem lookup_append_right (l1 l2 : List (String × Nat)) (k : String)
    (h : l1.lookup k = none) : (l1 ++ l2).lookup k = l2.lookup k := by
  induction l1 with
  | nil => rfl
  | cons p l ih =>
      by_cases hp : k = p.1
      · simp [List.lookup, hp] at h
      · simp only [List.cons_append, List.lookup] at h ⊢
        have hb : (k == p.1) = false := by simp [hp]
        rw [hb] at h ⊢
        exact ih h

/-- C3: when the engine hint requests the cloud engine (explicitly
`'textract'`, or absent and defaulted to it) and the primary Textract run
fails, the Tesseract fallback is invoked exactly once — recovering its
success, or capturing both error messages when it also fails; when the hint
requests the offline engine (`'tesseract'`) and it fails, no Textract or
second Tesseract call occurs and the failure message is propagated.  Both
the `extractReceiptData` and the `uploadReceipt` OCR phases behave this
way. -/
theorem cloud_primary_fallback_policy (m m2 : String)
    (tex tess : Except String ExtractedData) (d : ExtractedData) :
    (extractReceiptData (some "textract") (.error m) (.ok d) = ⟨some d, none, 1, 1⟩)
    ∧ (extractReceiptData none (.error m) (.ok d) = ⟨some d, none, 1, 1⟩)
    ∧ (extractReceiptData (some "textract") (.error m) (.error m2) =
        ⟨none, some ("Primary OCR failed: " ++ m ++ ". Fallback also failed: " ++ m2), 1, 1⟩)
    ∧ ((extractReceiptData (some "textract") (.error m) tess).tesseractCalls = 1)
    ∧ ((extractReceiptData none (.error m) tess).tesseractCalls = 1)
    ∧ (extractReceiptData (some "tesseract") tex (.error m) = ⟨none, some m, 0, 1⟩)
    ∧ (uploadReceiptOcr (some "textract") (.error m) (.ok d) = ⟨some d, none, 1, 1⟩)
    ∧ (uploadReceiptOcr none (.error m) (.ok d) = ⟨some d, none, 1, 1⟩)
    ∧ (uploadReceiptOcr (some "textract") (.error m) (.error m2) =
        ⟨none, some ("Primary OCR failed: " ++ m ++ ". Fallback also failed: " ++ m2), 1, 1⟩)
    ∧ ((uploadReceiptOcr (some "textract") (.error m) tess).tesseractCalls = 1)
    ∧ ((uploadReceiptOcr none (.error m) tess).tesseractCalls = 1)
    ∧ (uploadReceiptOcr (some "tesseract") tex (.error m) = ⟨none, some m, 0, 1⟩) := by
  refine ⟨rfl, rfl, rfl, ?_, ?_, ?_, rfl, rfl, rfl, ?_, ?_, ?_⟩
  · cases tess <;> rfl
  · cases tess <;> rfl
  · cases tex <;> rfl
  · cases tess <;> rfl
  · cases tess <;> rfl
  · cases tex <;> rfl

/-- C7 counterexample: with an unknown engine hint (`'gpt'`), a failing
Textract primary and a Tesseract run that would succeed, the orchestrator
returns no data and no fallback call — while the explicit `'textract'` hint
on the same engine outcomes recovers via the fallback.  The unknown hint
therefore does not behave as if the cloud engine had been hinted. -/
theorem unknown_hint_differs_from_cloud_cex :
    extractReceiptData (some "gpt") (.error "boom") (.ok sampleExtracted) =
      ⟨none, some "boom", 1, 0⟩
    ∧ extractReceiptData (some "textract") (.error "boom") (.ok sampleExtracted) =
      ⟨some sampleExtracted, none, 1, 1⟩
    ∧ uploadReceiptOcr (some "gpt") (.error "boom") (.ok sampleExtracted) =
      ⟨none, some "boom", 1, 0⟩
    ∧ (⟨none, some "boom", 1, 0⟩ : OcrOutcome) ≠
      ⟨some sampleExtracted, none, 1, 1⟩ := by
  refine ⟨rfl, rfl, rfl, by decide⟩

/-- C7 amended: an absent hint behaves exactly as the explicit `'textract'`
hint (the destructuring default), but an unknown hint — while selecting the
cloud engine as primary — triggers no fallback on primary failure, because
the fallback guard compares the raw hint string against `'textract'`; the
primary failure is propagated instead. -/
theorem unknown_hint_gets_no_fallback (tex tess : Except String ExtractedData)
    (u m : String) (hu1 : u ≠ "tesseract") (hu2 : u ≠ "textract") :
    (extractReceiptData none tex tess = extractReceiptData (some "textract") tex tess)
    ∧ (uploadReceiptOcr none tex tess = uploadReceiptOcr (some "textract") tex tess)
    ∧ (extractReceiptData (some u) (.error m) tess = ⟨none, some m, 1, 0⟩)
    ∧ (uploadReceiptOcr (some u) (.error m) tess = ⟨none, some m, 1, 0⟩) := by
  refine ⟨rfl, rfl, ?_, ?_⟩
  · simp [extractReceiptData, hu1, hu2]
  · simp [uploadReceiptOcr, hu1, hu2]

/-- C7 witness: the amended theorem applied at the concrete unknown hint
`'gpt'` with a failing primary and a succeeding Tesseract run. -/
theorem unknown_hint_gets_no_fallback_witness :
    extractReceiptData (some "gpt") (.error "x") (.ok sampleExtracted) =
      ⟨none, some "x", 1, 0⟩ :=
  (unknown_hint_gets_no_fallback (.error "x") (.ok sampleExtracted) "gpt" "x"
    (by decide) (by decide)).2.2.1

/-- C10 counterexample: on the receipt auto-file paths an explicit
`categoryId` hint is looked up with no type filter, so resolution returns
the income-typed category 5 — whose type is neither `expense` nor `both` —
contradicting the claimed invariant that these paths only ever return or
create expense-compatible categories regardless of the caller's hints. -/
theorem id_hint_bypasses_type_filter_cex :
    (resolveReceiptCategory none (some 5) uploadReceiptDefaults 7 incomeStore 100).1 =
      ⟨5, "Salary", "income", some 7, false⟩
    ∧ ("income" ≠ "expense" ∧ ("income" : String) ≠ "both") := by
  refine ⟨by decide, by decide, by decide⟩

/-- C10 amended: without an id hint the claimed invariant holds — the name
lookup and the default-name lookup both filter on type in
`{expense, both}`, and the fallback creation is expense-typed — so the
resolved category's type is always `expense` or `both`; only an explicit
`categoryId` hint can bypass the filter. -/
theorem no_id_hint_resolution_expense_typed (categoryName : Option String)
    (defaults : List String) (uid : Nat) (store : List Category) (ni : Nat) :
    (resolveReceiptCategory categoryName none defaults uid store ni).1.type = "expense"
    ∨ (resolveReceiptCategory categoryName none defaults uid store ni).1.type = "both" := by
  unfold resolveReceiptCategory
  by_cases hn : truthyStr categoryName = true
  · simp only [hn, Option.isSome_none, Bool.not_false, Bool.and_true, if_true]
    cases hf : store.find? (fun c => nameMatchesCI (categoryName.getD "") c &&
        ownerOrDefault uid c && expenseOrBoth c) with
    | some c =>
        have hp := List.find?_some hf
        simp only [Bool.and_eq_true, expenseOrBoth, Bool.or_eq_true, beq_iff_eq] at hp
        simp
        tauto
    | none =>
        cases hg : store.find? (fun c => defaults.contains c.name &&
            ownerOrDefault uid c && expenseOrBoth c) with
        | some c =>
            have hp := List.find?_some hg
            simp only [Bool.and_eq_true, expenseOrBoth, Bool.or_eq_true, beq_iff_eq] at hp
            simp
            tauto
        | none => simp
  · have hn2 : truthyStr categoryName = false := by
      cases h : truthyStr categoryName
      · rfl
      · exact absurd h hn
    simp only [hn2, Option.isSome_none, Bool.false_and, if_false]
    cases hg : store.find? (fun c => defaults.contains c.name &&
        ownerOrDefault uid c && expenseOrBoth c) with
    | some c =>
        have hp := List.find?_some hg
        simp only [Bool.and_eq_true, expenseOrBoth, Bool.or_eq_true, beq_iff_eq] at hp
        simp
        tauto
    | none => simp

/-- C4 counterexample: against a store holding a shared default category
`'Other Expenses'` typed `both`, the tabular-import resolution for hint
`'Utilities'` (type `income`) creates a fresh category named by the hint,
while the spec's fall-through (`specResolveCategory`, whose middle step is
the ordered default-name list the claim asserts) would return the existing
default category — so resolution does not fall through the default-name
list on this path. -/
theorem import_resolution_skips_default_names_cex :
    (findOrCreateImportCategory "Utilities" "income" 7 bothDefaultStore 100).1 =
      ⟨100, "Utilities", "income", some 7, false⟩
    ∧ (specResolveCategory "Utilities" "income" 7 createFromReceiptDefaults
        bothDefaultStore 100).1 = ⟨1, "Other Expenses", "both", none, true⟩
    ∧ (⟨100, "Utilities", "income", some 7, false⟩ : Category) ≠
      ⟨1, "Other Expenses", "both", none, true⟩ := by
  exact ⟨by decide, by decide, by decide⟩

/-- C4 amended: resolution never fails for name lookups, but only the
receipt paths run the three-step fall-through (type-filtered name match,
then the ordered default-name list, then creation of an `'Other Expenses'`
expense category); the tabular-import path falls through the name match
directly to creating a category named by the hint with the record's type.
On each path, starting from a store with no matching category, two
successive resolve calls with identical inputs create exactly one category
and the second call retrieves the first call's result. -/
theorem category_resolution_create_once
    (hint ttype : String) (uid : Nat) (store : List Category) (ni : Nat)
    (defaults : List String)
    (h1 : store.find? (fun c => nameMatchesCI hint c && ownerOrDefault uid c) = none)
    (hd : defaults.contains "Other Expenses" = true)
    (hhint : hint ≠ "")
    (h2 : store.find? (fun c => nameMatchesCI hint c && ownerOrDefault uid c &&
            expenseOrBoth c) = none)
    (h3 : store.find? (fun c => defaults.contains c.name && ownerOrDefault uid c &&
            expenseOrBoth c) = none) :
    (findOrCreateImportCategory hint ttype uid store ni =
      (⟨ni, hint, ttype, some uid, false⟩,
       store ++ [⟨ni, hint, ttype, some uid, false⟩], ni + 1))
    ∧ (findOrCreateImportCategory hint ttype uid
        (store ++ [⟨ni, hint, ttype, some uid, false⟩]) (ni + 1) =
      (⟨ni, hint, ttype, some uid, false⟩,
       store ++ [⟨ni, hint, ttype, some uid, false⟩], ni + 1))
    ∧ (resolveReceiptCategory (some hint) none defaults uid store ni =
      (⟨ni, "Other Expenses", "expense", some uid, false⟩,
       store ++ [⟨ni, "Other Expenses", "expense", some uid, false⟩], ni + 1))
    ∧ (resolveReceiptCategory (some hint) none defaults uid
        (store ++ [⟨ni, "Other Expenses", "expense", some uid, false⟩]) (ni + 1) =
      (⟨ni, "Other Expenses", "expense", some uid, false⟩,
       store ++ [⟨ni, "Other Expenses", "expense", some uid, false⟩], ni + 1)) := by
  have hhb : (hint == "") = false := beq_eq_false_iff_ne.mpr hhint
  refine ⟨?_, ?_, ?_, ?_⟩
  · unfold findOrCreateImportCategory
    rw [h1]
  · unfold findOrCreateImportCategory
    rw [List.find?_append, h1]
    simp [nameMatchesCI, ownerOrDefault]
  · unfold resolveReceiptCategory
    simp only [truthyStr, hhb, Bool.not_false, Option.isSome_none, Bool.and_true, if_true,
      Option.getD_some, h2, h3]
  · unfold resolveReceiptCategory
    simp only [truthyStr, hhb, Bool.not_false, Option.isSome_none, Bool.and_true, if_true,
      Option.getD_some, List.find?_append, h2, h3]
    by_cases hb : (lcStr "Other Expenses" == lcStr hint) = true
    · simp [nameMatchesCI, ownerOrDefault, expenseOrBoth, hb, List.find?_cons]
    · have hb2 : (lcStr "Other Expenses" == lcStr hint) = false := by
        cases h : (lcStr "Other Expenses" == lcStr hint)
        · rfl
        · exact absurd h hb
      have hd3 : decide ("Other Expenses" ∈ defaults) = true := by
        rw [← List.elem_eq_mem]; exact hd
      simp [nameMatchesCI, ownerOrDefault, expenseOrBoth, hb2, hd3, List.find?_cons,
        List.find?_append, h3]

/-- C4 witness: the amended theorem applied at hint `'Utilities'`, type
`income`, owner 7 on the empty store: the first tabular resolve creates
category 0 and the second retrieves it. -/
theorem category_resolution_create_once_witness :
    findOrCreateImportCategory "Utilities" "income" 7
      ([] ++ [⟨0, "Utilities", "income", some 7, false⟩]) 1 =
      (⟨0, "Utilities", "income", some 7, false⟩,
       [] ++ [⟨0, "Utilities", "income", some 7, false⟩], 1) :=
  (category_resolution_create_once "Utilities" "income" 7 [] 0
    createFromReceiptDefaults rfl (by decide) (by decide) rfl rfl).2.1

theorem attachReceiptInfo_amount (ri : ReceiptInfo) (t : TxnData) :
    (attachReceiptInfo ri t).amount = t.amount := by
  unfold attachReceiptInfo
  cases t.receipt <;> rfl

/-- C5 counterexample: calling create-from-extracted with
`overrides.amount` set to `0` and an extracted total of `10` produces a
transaction whose amount is the extracted total `10`, not the override
value `0`: the truthiness guard `if (overrides.amount)` drops a zero
override, so a set override does not always win. -/
theorem zero_amount_override_ignored_cex :
    zeroAmountOverride.amount = some ⟨0, 0⟩
    ∧ sampleExtracted.total = some ⟨10, 0⟩
    ∧ ((createTransactionFromReceipt (fun _ => 0) sampleExtracted sampleReceiptInfo
        zeroAmountOverride 7 [] 100 0).1).map (fun t => t.amount) = .ok ⟨10, 0⟩
    ∧ (⟨10, 0⟩ : Dec) ≠ ⟨0, 0⟩ := by
  exact ⟨rfl, rfl, by decide, by decide⟩

/-- C5 amended: an override field takes final authority whenever it is
truthy — a nonzero amount, a nonempty description, a nonempty date string —
but a falsy override (amount `0`, empty string) is ignored by the
`if (overrides.x)` guards and the extracted value is kept.  In particular a
nonzero `overrides.amount` always wins over the extracted total in the
created transaction. -/
theorem truthy_overrides_take_authority
    (pd : String → Int) (o : Overrides) (t : TxnData) (a : Dec) (s ds : String)
    (e : ExtractedData) (ri : ReceiptInfo) (uid ni : Nat)
    (store : List Category) (now : Int) :
    (o.amount = some a → a.num ≠ 0 → (applyOverrides pd o t).amount = a)
    ∧ (o.amount = some a → a.num = 0 → (applyOverrides pd o t).amount = t.amount)
    ∧ (o.description = some s → s ≠ "" → (applyOverrides pd o t).description = s)
    ∧ (o.date = some ds → ds ≠ "" → (applyOverrides pd o t).date = pd ds)
    ∧ (o.amount = some a → a.num ≠ 0 →
        ((createTransactionFromReceipt pd e ri o uid store ni now).1).map
          (fun x => x.amount) = .ok a) := by
  rcases o with ⟨oa, od, odt, ocn, oci⟩
  refine ⟨?_, ?_, ?_, ?_, ?_⟩
  · intro ha h0
    cases ha
    unfold applyOverrides
    cases od with
    | none =>
        cases odt with
        | none => simp [h0]
        | some d2 => by_cases hd2 : d2 ≠ "" <;> simp [h0, hd2]
    | some s2 =>
        by_cases hs2 : s2 ≠ "" <;> cases odt with
        | none => simp [h0, hs2]
        | some d2 => by_cases hd2 : d2 ≠ "" <;> simp [h0, hs2, hd2]
  · intro ha h0
    cases ha
    unfold applyOverrides
    cases od with
    | none =>
        cases odt with
        | none => simp [h0]
        | some d2 => by_cases hd2 : d2 ≠ "" <;> simp [h0, hd2]
    | some s2 =>
        by_cases hs2 : s2 ≠ "" <;> cases odt with
        | none => simp [h0, hs2]
        | some d2 => by_cases hd2 : d2 ≠ "" <;> simp [h0, hs2, hd2]
  · intro hs hne
    cases hs
    unfold applyOverrides
    cases oa with
    | none =>
        cases odt with
        | none => simp [hne]
        | some d2 => by_cases hd2 : d2 ≠ "" <;> simp [hne, hd2]
    | some a2 =>
        by_cases ha2 : a2.num ≠ 0 <;> cases odt with
        | none => simp [hne, ha2]
        | some d2 => by_cases hd2 : d2 ≠ "" <;> simp [hne, ha2, hd2]
  · intro hdt hne
    cases hdt
    unfold applyOverrides
    simp [hne]
  · intro ha h0
    cases ha
    unfold createTransactionFromReceipt
    simp only [Except.map]
    rw [attachReceiptInfo_amount]
    unfold applyOverrides
    cases od with
    | none =>
        cases odt with
        | none => simp [h0]
        | some d2 => by_cases hd2 : d2 ≠ "" <;> simp [h0, hd2]
    | some s2 =>
        by_cases hs2 : s2 ≠ "" <;> cases odt with
        | none => simp [h0, hs2]
        | some d2 => by_cases hd2 : d2 ≠ "" <;> simp [h0, hs2, hd2]

/-- C5 witness: the amended theorem applied with a nonzero amount override
`5` over an extracted total `10`: the override wins. -/
theorem truthy_overrides_take_authority_witness :
    ((createTransactionFromReceipt (fun _ => 0) sampleExtracted sampleReceiptInfo
        fiveAmountOverride 7 [] 100 0).1).map (fun x => x.amount) = .ok ⟨5, 0⟩ :=
  (truthy_overrides_take_authority (fun _ => 0) fiveAmountOverride
    (generateTransactionData sampleExtracted 7 0 0) ⟨5, 0⟩ "x" "y"
    sampleExtracted sampleReceiptInfo 7 100 [] 0).2.2.2.2 rfl (by decide)

/-- C2 counterexample: create-from-extracted with an id hint pointing at the
income-typed category 5 creates the expense transaction anyway — the result
is a success carrying `type = 'expense'` and `categoryId = 5` although
category 5's type (`income`) is neither `both` nor `expense` — so not every
transaction write path rejects a type-mismatched category. -/
theorem receipt_paths_skip_type_check_cex :
    ((createTransactionFromReceipt (fun _ => 0) sampleExtracted sampleReceiptInfo
        idHintOverride 7 incomeStore 100 0).1).map (fun t => (t.type, t.categoryId)) =
      .ok ("expense", 5)
    ∧ incomeStore = [⟨5, "Salary", "income", some 7, false⟩]
    ∧ ("income" ≠ "both" ∧ ("income" : String) ≠ "expense") := by
  exact ⟨by decide, rfl, by decide, by decide⟩

/-- C2 amended: the type-compatibility check exists only on the direct
transaction-create path, which rejects a category whose type is neither
`both` nor the transaction's type with the descriptive conflict error; the
two receipt paths (auto-file after upload, create-from-extracted) perform
no type check at all and always reach `Transaction.create`. -/
theorem type_conflict_enforced_only_on_direct_create
    (body : CreateTxnBody) (uid : Nat) (c : Category)
    (files : List (String × Nat)) (perm : String) (now : Int)
    (h1 : c.type ≠ "both") (h2 : c.type ≠ body.type) :
    (createTransactionWithCategory body uid c files perm now =
      .error (.badRequest ("Category '" ++ c.name ++ "' cannot be used for "
        ++ body.type ++ " transactions")))
    ∧ (∀ (pd : String → Int) (e : ExtractedData) (ri : ReceiptInfo) (o : Overrides)
        (uid2 ni : Nat) (store : List Category) (now2 : Int),
        ∃ t, (createTransactionFromReceipt pd e ri o uid2 store ni now2).1 = .ok t)
    ∧ (∀ (e : ExtractedData) (ri : ReceiptInfo) (cn : Option String) (ci : Option Nat)
        (uid3 ni : Nat) (store : List Category) (now3 : Int),
        ∃ t, (uploadReceiptAutoFile e ri cn ci uid3 store ni now3).1 = .ok t) := by
  have hb1 : (c.type == "both") = false := beq_eq_false_iff_ne.mpr h1
  have hb2 : (c.type == body.type) = false := beq_eq_false_iff_ne.mpr h2
  refine ⟨?_, ?_, ?_⟩
  · unfold createTransactionWithCategory
    simp [hb1, hb2]
  · intro pd e ri o uid2 ni store now2
    exact ⟨_, rfl⟩
  · intro e ri cn ci uid3 ni store now3
    exact ⟨_, rfl⟩

/-- C2 witness: the amended theorem applied at the income-typed category 5
and the concrete expense request body: the direct create path rejects with
the conflict error. -/
theorem type_conflict_enforced_only_on_direct_create_witness :
    createTransactionWithCategory sampleBody 7 ⟨5, "Salary", "income", some 7, false⟩
        [] "perm/a.jpg" 0 =
      .error (.badRequest ("Category '" ++ "Salary" ++ "' cannot be used for "
        ++ "expense" ++ " transactions")) :=
  (type_conflict_enforced_only_on_direct_create sampleBody 7
    ⟨5, "Salary", "income", some 7, false⟩ [] "perm/a.jpg" 0
    (by decide) (by decide)).1

/-- C8: when the create-transaction request carries a temp receipt file and
the temp→permanent move fails (the temp path is absent from the blob
store), the database write still proceeds and succeeds: the result is the
receipt-less draft `txnCore`, with the blob store untouched; moreover every
successful run of the same request — whatever the blob-store state, move
succeeding or not — produces a transaction whose non-receipt fields equal
`txnCore`, so a move failure changes nothing but the receipt attachment. -/
theorem move_failure_never_blocks_write
    (body : CreateTxnBody) (uid : Nat) (c : Category)
    (files : List (String × Nat)) (perm : String) (now : Int)
    (info : TempFileInfo) (rd : ReceiptData)
    (hok : (c.type == "both" || c.type == body.type) = true)
    (hinfo : body.receiptFileInfo = some info)
    (hrd : body.receiptData = some rd)
    (hfail : files.lookup info.tempPath = none) :
    (createTransactionWithCategory body uid c files perm now =
      .ok (txnCore body uid c now, files))
    ∧ ((txnCore body uid c now).receipt = none)
    ∧ (∀ (files2 files2' : List (String × Nat)) (t2 : TxnData),
        createTransactionWithCategory body uid c files2 perm now = .ok (t2, files2') →
        { t2 with receipt := none } = txnCore body uid c now) := by
  have hor : (c.type == "both") = true ∨ (c.type == body.type) = true := by
    simpa using hok
  have hcond : (!(c.type == "both") && !(c.type == body.type)) = false := by
    rcases hor with hx | hx <;> simp [hx]
  have hcondP : ¬((!(c.type == "both") && !(c.type == body.type)) = true) := by
    simp [hcond]
  refine ⟨?_, rfl, ?_⟩
  · unfold createTransactionWithCategory
    rw [if_neg hcondP]
    simp only [hinfo, hrd, renameSync, hfail]
  · intro files2 files2' t2 hrun
    unfold createTransactionWithCategory at hrun
    rw [if_neg hcondP] at hrun
    simp only [hinfo, hrd] at hrun
    cases hr : renameSync files2 info.tempPath perm with
    | some f1 =>
        rw [hr] at hrun
        injection hrun with hp
        have ht2 := congrArg Prod.fst hp
        simp only at ht2
        rw [← ht2]
        simp [txnCore]
    | none =>
        rw [hr] at hrun
        injection hrun with hp
        have ht2 := congrArg Prod.fst hp
        simp only at ht2
        rw [← ht2]
        simp [txnCore]

/-- C8 witness: the theorem applied at the concrete receipt-carrying
request against an empty blob store (so the move fails): the write
succeeds receipt-less. -/
theorem move_failure_never_blocks_write_witness :
    createTransactionWithCategory receiptBody 7 expenseCat [] "perm/a.jpg" 0 =
      .ok (txnCore receiptBody 7 expenseCat 0, []) :=
  (move_failure_never_blocks_write receiptBody 7 expenseCat [] "perm/a.jpg" 0
    ⟨"tmp/a.jpg", "a.jpg", "image/jpeg", 3, 0⟩ ⟨"Sto", ⟨10, 0⟩⟩
    (by decide) rfl rfl rfl).1

/-- C9: promoting a temp receipt handle moves the blob from the temp path
to the fresh permanent name and removes the temp entry; a second promotion
of the same handle fails distinctly (`renameSync` errors on the missing
source, caught by the controller which proceeds receipt-less with the blob
store unchanged) and the file produced by the first promotion is left
bound to its permanent name, untouched by the second attempt. -/
theorem double_promotion_fails_distinctly
    (files : List (String × Nat)) (tempPath perm1 perm2 : String) (cid : Nat)
    (body : CreateTxnBody) (uid : Nat) (c : Category) (now : Int)
    (info : TempFileInfo) (rd : ReceiptData)
    (h : files.lookup tempPath = some cid) (hne : perm1 ≠ tempPath)
    (hok : (c.type == "both" || c.type == body.type) = true)
    (hinfo : body.receiptFileInfo = some info) (hrd : body.receiptData = some rd)
    (hpath : info.tempPath = tempPath) :
    (renameSync files tempPath perm1 = some (movedFiles files tempPath perm1 cid))
    ∧ ((movedFiles files tempPath perm1 cid).lookup tempPath = none)
    ∧ (renameSync (movedFiles files tempPath perm1 cid) tempPath perm2 = none)
    ∧ ((movedFiles files tempPath perm1 cid).lookup perm1 = some cid)
    ∧ (createTransactionWithCategory body uid c
        (movedFiles files tempPath perm1 cid) perm2 now =
      .ok (txnCore body uid c now, movedFiles files tempPath perm1 cid)) := by
  have hor : (c.type == "both") = true ∨ (c.type == body.type) = true := by
    simpa using hok
  have hcond : (!(c.type == "both") && !(c.type == body.type)) = false := by
    rcases hor with hx | hx <;> simp [hx]
  have hcondP : ¬((!(c.type == "both") && !(c.type == body.type)) = true) := by
    simp [hcond]
  have hb1 : (tempPath == perm1) = false :=
    beq_eq_false_iff_ne.mpr (fun hh => hne hh.symm)
  have hlook : (movedFiles files tempPath perm1 cid).lookup tempPath = none := by
    unfold movedFiles
    rw [lookup_append_right _ _ _
      (lookup_filter_none files tempPath perm1 tempPath (Or.inl rfl))]
    simp [List.lookup, hb1]
  refine ⟨?_, hlook, ?_, ?_, ?_⟩
  · simp only [renameSync, movedFiles, h]
  · simp only [renameSync, hlook]
  · unfold movedFiles
    rw [lookup_append_right _ _ _
      (lookup_filter_none files tempPath perm1 perm1 (Or.inr rfl))]
    simp [List.lookup]
  · unfold createTransactionWithCategory
    rw [if_neg hcondP]
    simp only [hinfo, hrd, hpath, renameSync, hlook]

/-- C9 witness: the theorem applied at a concrete store holding one temp
file: the first promotion succeeds, the second fails and leaves the
promoted file in place. -/
theorem double_promotion_fails_distinctly_witness :
    renameSync (movedFiles [("tmp/a.jpg", 9)] "tmp/a.jpg" "perm/a.jpg" 9)
      "tmp/a.jpg" "perm/b.jpg" = none :=
  (double_promotion_fails_distinctly [("tmp/a.jpg", 9)] "tmp/a.jpg" "perm/a.jpg"
    "perm/b.jpg" 9 receiptBody 7 expenseCat 0
    ⟨"tmp/a.jpg", "a.jpg", "image/jpeg", 3, 0⟩ ⟨"Sto", ⟨10, 0⟩⟩
    rfl (by decide) (by decide) rfl rfl rfl).2.2.1

theorem contains_dash_strip (s : String) :
    containsChar '-' (stripDollarComma s).data = containsChar '-' s.data := by
  obtain ⟨l⟩ := s
  show containsChar '-' (l.filter _) = containsChar '-' l
  induction l with
  | nil => rfl
  | cons c cs ih =>
      by_cases hc : (!(decide (c = '$') || decide (c = ','))) = true
      · simp only [List.filter_cons, hc, if_true, containsChar, ih]
      · have hc2 : (!(decide (c = '$') || decide (c = ','))) = false := by
          cases hv : (!(decide (c = '$') || decide (c = ',')))
          · rfl
          · exact absurd hv hc
        have hcc : c = '$' ∨ c = ',' := by
          have hv2 : (decide (c = '$') || decide (c = ',')) = true := by
            cases hv : (decide (c = '$') || decide (c = ','))
            · rw [hv] at hc2; exact absurd hc2 (by decide)
            · rfl
          simpa [Bool.or_eq_true, decide_eq_true_eq] using hv2
        have hd : ('-' == c) = false := by
          rcases hcc with h | h <;> subst h <;> rfl
        simp only [List.filter_cons, hc2, Bool.false_eq_true, if_false,
          containsChar, hd, Bool.false_or, ih]

/-- C6: for every line the tabular parser accepts, the inferred type is
`'expense'` exactly when the raw amount field (third field of the split
line, before currency stripping — stripping `$`/`,` does not affect `-`)
contains a minus sign or the description field contains the
case-insensitive substring `payment`, and `'income'` otherwise; and on the
spec's two-line example the parser yields exactly the two records
{expense, 45.20, Groceries} and {income, 2000, Salary}. -/
theorem tabular_type_inference :
    (∀ (pd : String → Option Int) (uid : Nat) (line : String) (t : ImportTxn),
        parseLine pd uid line = some t →
        (t.type = "expense" ↔
          (containsChar '-' ((splitLine line).getD 2 "").data = true
           ∨ containsSub "payment".data (lcStr ((splitLine line).getD 1 "")).data = true)))
    ∧ parseTabularData isoDate? csvExample 7 =
        [⟨7, "expense", ⟨452, 1⟩, "Grocery Store", "Groceries", 20240105, true⟩,
         ⟨7, "income", ⟨2000, 0⟩, "Paycheck", "Salary", 20240106, true⟩] := by
  constructor
  · intro pd uid line t h
    simp only [parseLine] at h
    split at h
    · split at h
      · exact absurd h (by simp)
      · split at h
        · exact absurd h (by simp)
        · split at h
          · exact absurd h (by simp)
          · injection h with h
            subst h
            rw [← contains_dash_strip ((splitLine line).getD 2 "")]
            cases hA : (containsChar '-' (stripDollarComma ((splitLine line).getD 2 "")).data
                || containsSub "payment".data (lcStr ((splitLine line).getD 1 "")).data)
            · have h1 : containsChar '-' (stripDollarComma ((splitLine line).getD 2 "")).data = false
                  ∧ containsSub "payment".data (lcStr ((splitLine line).getD 1 "")).data = false := by
                simpa using hA
              rw [if_neg (by decide : ¬(false = true))]
              constructor
              · intro hx
                simp at hx
              · intro hx
                simp only [List.getD_eq_getElem?_getD] at h1
                rcases hx with hx | hx
                · simp [h1.1] at hx
                · simp [h1.2] at hx
            · have h1 : containsChar '-' (stripDollarComma ((splitLine line).getD 2 "")).data = true
                  ∨ containsSub "payment".data (lcStr ((splitLine line).getD 1 "")).data = true := by
                simpa using hA
              rw [if_pos (by decide : (true = true))]
              exact ⟨fun _ => h1, fun _ => rfl⟩
    · exact absurd h (by simp)
  · decide

/-- C6 witness: the type-inference rule applied at the concrete first
example line, whose raw amount `-45.20` contains a minus sign. -/
theorem tabular_type_inference_witness :
    parseLine isoDate? 7 "2024-01-05,Grocery Store,-45.20,Groceries" =
      some ⟨7, "expense", ⟨452, 1⟩, "Grocery Store", "Groceries", 20240105, true⟩
    ∧ ((⟨7, "expense", ⟨452, 1⟩, "Grocery Store", "Groceries", 20240105, true⟩ :
          ImportTxn).type = "expense" ↔
        (containsChar '-' ((splitLine "2024-01-05,Grocery Store,-45.20,Groceries").getD 2 "").data = true
         ∨ containsSub "payment".data
            (lcStr ((splitLine "2024-01-05,Grocery Store,-45.20,Groceries").getD 1 "")).data = true)) :=
  ⟨by decide, tabular_type_inference.1 isoDate? 7 _ _ (by decide)⟩

/-- C1 counterexample: for the input whose single data line is
`not-a-date,X,10`, the parser yields zero records (as claimed) but the
result carries no ParseError at all — `parseTabularData` returns records
only and the rejected line is skipped with nothing but a console warning —
and instead of returning the partial result non-fatally the import then
fails wholesale with `No valid transactions found in the uploaded file`,
so no errors collection with exactly one ParseError is ever produced. -/
theorem tabular_reject_one_error_cex :
    parseTabularData isoDate? badDateExample 7 = []
    ∧ uploadTransactionHistory isoDate? badDateExample 7 [] 0 =
        .error "No valid transactions found in the uploaded file" := by
  exact ⟨by decide, by decide⟩

/-- C1 amended: a line the parser rejects (here: unparseable date) is
skipped and yields no record, but no ParseError is appended anywhere — the
parser returns records only; consequently an input whose single data line
is rejected parses to zero records, and any input parsing to zero records
makes the whole import fail with the `No valid transactions found` error
rather than returning a partial result. -/
theorem tabular_reject_skips_without_error
    (pd : String → Option Int) (uid : Nat)
    (h : pd "not-a-date" = none) :
    parseLine pd uid "not-a-date,X,10" = none
    ∧ parseTabularData pd badDateExample uid = []
    ∧ uploadTransactionHistory pd badDateExample uid [] 0 =
        .error "No valid transactions found in the uploaded file"
    ∧ (∀ (text : String) (store : List Category) (ni : Nat),
        parseTabularData pd text uid = [] →
        uploadTransactionHistory pd text uid store ni =
          .error "No valid transactions found in the uploaded file") := by
  have hline : parseLine pd uid "not-a-date,X,10" = none := by
    have hs : splitLine "not-a-date,X,10" = ["not-a-date", "X", "10"] := by decide
    simp only [parseLine, hs]
    simp [h]
  have hparse : parseTabularData pd badDateExample uid = [] := by
    have hl : (splitOnChar '\n' badDateExample).filter (fun l => !(trimStr l == "")) =
        ["Date,Description,Amount", "not-a-date,X,10"] := by decide
    have ht : trimStr "not-a-date,X,10" = "not-a-date,X,10" := by decide
    simp only [parseTabularData, hl]
    simp [ht, hline]
  have hfails : ∀ (text : String) (store : List Category) (ni : Nat),
      parseTabularData pd text uid = [] →
      uploadTransactionHistory pd text uid store ni =
        .error "No valid transactions found in the uploaded file" := by
    intro text store ni hp
    simp only [uploadTransactionHistory, hp]
    rfl
  exact ⟨hline, hparse, hfails badDateExample [] 0 hparse, hfails⟩

/-- C1 witness: the amended theorem applied at the concrete ISO date
parser, which rejects `not-a-date`. -/
theorem tabular_reject_skips_without_error_witness :
    parseLine isoDate? 7 "not-a-date,X,10" = none :=
  (tabular_reject_skips_without_error isoDate? 7 rfl).1
